import Mathlib

/-!
# Device-specific LED services (`FastLED-Light/DEV_LED.h`)

A shallow embedding of the four light-bulb services of the sketch
(`DEV_LED`, `DEV_DimmableLED`, `DEV_RgbLED`, `DEV_FastLED`) and of their
`update()` methods.

Conventions of the embedding

* A C `int`/`long` is an `Int`.  All arithmetic on characteristic values that
  are inside their HomeKit ranges stays below `100 * 255`, far away from the
  32-bit limits, so no wrap-around is modelled in `map`.
* A C `float` or `double` value is the rational number it denotes (`ℚ`).  Every
  floating-point operation rounds its exact result to the nearest value of the
  format, ties to even (`toFloat32`, `toFloat64`); the exponent range is not
  limited, characteristic values being far from overflow and underflow.  The
  conversion of a `float` to an integer type is truncation toward zero
  (`truncQ`).
* An `int` handed to an 8-bit parameter of the strip driver is reduced modulo
  256 (`toUInt8`).
* A `boolean` used in arithmetic is `0` or `1`.
* `sprintf`/`LOG1` diagnostics write to the serial log only and are left out.
* Every `update()` returns the pair of its C++ return value and the driver
  state it leaves behind.
-/

namespace FastLEDLight

/-! ## Collaborators outside the repository -/

/-- Modelled from the spec: the characteristic reference of the accessory
framework (`SpanCharacteristic`), which is not part of this repository.  It
exposes the last-committed value, the pending-new value and the
"changed this cycle" flag. -/
structure SpanCharacteristic (α : Type) where
  /-- last-committed value -/
  value : α
  /-- pending-new value -/
  newValue : α
  /-- changed this cycle -/
  isUpdated : Bool
deriving DecidableEq, Repr

namespace SpanCharacteristic

variable {α : Type}

/-- The accessor `getVal()`: last-committed value. -/
def getVal (c : SpanCharacteristic α) : α := c.value

/-- The accessor `getNewVal()`: pending-new value. -/
def getNewVal (c : SpanCharacteristic α) : α := c.newValue

/-- The accessor `updated()`: whether this cycle changed the characteristic. -/
def updated (c : SpanCharacteristic α) : Bool := c.isUpdated

/-- Merge rule in the words of the spec:
`effective(attr) = pending(attr) if changed_this_cycle else last(attr)`. -/
def effective (c : SpanCharacteristic α) : α :=
  if c.isUpdated then c.newValue else c.value

/-- Modelled from the spec: the framework's side of a characteristic that is
not part of this repository.  The pending value is meaningful only when the
cycle changed the characteristic; otherwise it mirrors the last value. -/
def WellFormed (c : SpanCharacteristic α) : Prop :=
  c.isUpdated = false → c.newValue = c.value

instance [DecidableEq α] (c : SpanCharacteristic α) : Decidable c.WellFormed := by
  unfold WellFormed
  infer_instance

/-- Modelled from the spec: a characteristic as the framework creates it,
nothing pending. -/
def init (x : α) : SpanCharacteristic α := ⟨x, x, false⟩

/-- Modelled from the spec: the framework records a requested change (if any)
as the pending value and raises the flag; an attribute the request does not
mention is left alone. -/
def request (c : SpanCharacteristic α) : Option α → SpanCharacteristic α
  | some x => { c with newValue := x, isUpdated := true }
  | none => c

/-- Modelled from the spec: after a successful reconciliation the framework
commits the pending value of a changed characteristic and clears the flag. -/
def commit (c : SpanCharacteristic α) : SpanCharacteristic α :=
  if c.isUpdated then ⟨c.newValue, c.newValue, false⟩ else c

end SpanCharacteristic

/-- A `boolean` promoted to `int` in an arithmetic expression. -/
def boolToInt (b : Bool) : Int := if b then 1 else 0

/-- A `boolean` promoted to `float` in an arithmetic expression. -/
def boolToQ (b : Bool) : ℚ := if b then 1 else 0

/-- Conversion of a `float` to `int`/`long`: truncation toward zero. -/
def truncQ (x : ℚ) : Int := if x < 0 then -⌊-x⌋ else ⌊x⌋

/-- Rounding of a rational to the nearest integer, ties to the even one. -/
def roundHalfEven (x : ℚ) : Int :=
  if x - ⌊x⌋ < 1 / 2 then ⌊x⌋
  else if 1 / 2 < x - ⌊x⌋ then ⌊x⌋ + 1
  else if ⌊x⌋ % 2 = 0 then ⌊x⌋ else ⌊x⌋ + 1

/-- Rounding of an exact result to the binary floating-point format with `prec`
significand bits: nearest representable value, ties to even. -/
def roundToPrec (prec : Nat) (x : ℚ) : ℚ :=
  if x = 0 then 0
  else (roundHalfEven (x / 2 ^ (Int.log 2 |x| - ((prec : Int) - 1))) : ℚ)
    * 2 ^ (Int.log 2 |x| - ((prec : Int) - 1))

/-- The result of an operation carried out in `float` (24 significand bits). -/
def toFloat32 (x : ℚ) : ℚ := roundToPrec 24 x

/-- The result of an operation carried out in `double` (53 significand bits). -/
def toFloat64 (x : ℚ) : ℚ := roundToPrec 53 x

/-- Conversion of an `int` to `uint8_t`: reduction modulo 256. -/
def toUInt8 (x : Int) : Int := x % 256

/-- Modelled from the spec: the PWM output contract `setLevel(percent)` of the
`LedPin` driver (HomeSpan `extras/PwmPin.h`, not part of this repository):
the pin the driver is attached to and the level last written to it. -/
structure LedPin where
  pin : Int
  level : Int
deriving DecidableEq, Repr

/-- The call `ledPin->set(level)`. -/
def LedPin.set (l : LedPin) (level : Int) : LedPin := { l with level := level }

/-- The digital pins: the level last written to each pin number. -/
abbrev PinLevels := Int → Int

/-- The call `digitalWrite(pin, val)`. -/
def digitalWrite (gpio : PinLevels) (pin : Int) (val : Int) : PinLevels :=
  fun q => if q = pin then val else gpio q

/-- Modelled from the spec: Arduino's `map(x, in_min, in_max, out_min, out_max)`
(core library, not part of this repository), "the integer (truncating) linear
map": `(x - in_min) * (out_max - out_min) / (in_max - in_min) + out_min` with C
integer division. -/
def map (x in_min in_max out_min out_max : Int) : Int :=
  Int.tdiv ((x - in_min) * (out_max - out_min)) (in_max - in_min) + out_min

/-- Arduino's macro `constrain(amt, low, high)`:
`((amt)<(low)?(low):((amt)>(high)?(high):(amt)))`. -/
def constrain (amt low high : Int) : Int :=
  if amt < low then low else if amt > high then high else amt

/-- The spec's `clamp(x, lo, hi)`: the point of `[lo, hi]` nearest to `x`. -/
def clamp (x lo hi : Int) : Int := max lo (min x hi)

/-- An RGB pixel of the strip (`CRGB`). -/
structure CRGB where
  r : Nat
  g : Nat
  b : Nat
deriving DecidableEq, Repr

/-- A colour sample (`CHSV`) holding the `int` arguments as the sketch hands
them to `setHSV` (the driver's own fields are 8 bits wide). -/
structure CHSV where
  hue : Int
  sat : Int
  val : Int
deriving DecidableEq, Repr

/-- The call `color_hsv.setHSV(ih, is, iv)`. -/
def CHSV.setHSV (_ : CHSV) (ih is iv : Int) : CHSV := ⟨ih, is, iv⟩

/-- Modelled from the spec: the pixel-strip contract (`fillUniform`,
`setGlobalBrightness(level: 0..255)`, `commit`) of the FastLED driver, which is
not part of this repository: the pixel buffer `ledArray` points at, the 8-bit
global brightness scalar, and the frame (buffer and brightness) last pushed to
the strip. -/
structure CFastLED where
  leds : List CRGB
  brightness : Int
  shown : List CRGB × Int
deriving DecidableEq, Repr

/-- The loop of `fill_solid(targetArray, numToFill, color)`:
`for (i = 0; i < numToFill; ++i) targetArray[i] = color;`. -/
def fill_solid (targetArray : List CRGB) (numToFill : Int) (color : CRGB) : List CRGB :=
  (List.range numToFill.toNat).foldl (fun arr i => arr.set i color) targetArray

/-- The call `FastLED.setBrightness(scale)`: the driver's parameter is 8 bits
wide (`level: 0..255`), so the `int` the sketch passes is converted on the
way in. -/
def CFastLED.setBrightness (f : CFastLED) (scale : Int) : CFastLED :=
  { f with brightness := toUInt8 scale }

/-- The call `FastLED.show()`: one flush of buffer and brightness together. -/
def CFastLED.showLeds (f : CFastLED) : CFastLED :=
  { f with shown := (f.leds, f.brightness) }

/-- Modelled from the spec: the "standard HSV-to-RGB conversion (sector-based:
compute chroma, intermediate X, and match value, add to base per 60° sector
0–5)" behind `LedPin::HSVtoRGB` (HomeSpan, not part of this repository), with
`h` in degrees and `s`, `v` in `[0,1]`. -/
def HSVtoRGB (h s v : ℚ) : ℚ × ℚ × ℚ :=
  let chroma := v * s
  let hs := h / 60
  let sector := ⌊hs⌋ % 6
  let x := chroma * (1 - |hs - 2 * ⌊hs / 2⌋ - 1|)
  let m := v - chroma
  if sector = 0 then (chroma + m, x + m, m)
  else if sector = 1 then (x + m, chroma + m, m)
  else if sector = 2 then (m, chroma + m, x + m)
  else if sector = 3 then (m, x + m, chroma + m)
  else if sector = 4 then (x + m, m, chroma + m)
  else (chroma + m, m, x + m)

/-- Modelled from the spec: FastLED's `scale8(i, scale)` (not part of this
repository), the fraction `scale/256` of `i`: `(i * (1 + scale)) >> 8`. -/
def scale8 (i scale : Nat) : Nat := (i * (1 + scale)) / 256

/-- Modelled from the spec: the "spectrum-based (non-rainbow) HSV→RGB routine"
`hsv2rgb_spectrum` of the FastLED driver (not part of this repository), after
the library's portable 8-bit routine: the hue is scaled onto three ramps of 64
steps, every channel starts from the brightness floor `value * (255 - sat) / 256`
and the two channels of the hue's ramp add their share of the remaining
amplitude. -/
def hsv2rgb_spectrum (hsv : CHSV) : CRGB :=
  let hue := scale8 (toUInt8 hsv.hue).toNat 191
  let value := (toUInt8 hsv.val).toNat
  let saturation := (toUInt8 hsv.sat).toNat
  let invsat := 255 - saturation
  let brightness_floor := value * invsat / 256
  let color_amplitude := value - brightness_floor
  let hueSection := hue / 64
  let offset := hue % 64
  let rampup := offset
  let rampdown := 63 - offset
  let rampup_amp_adj := rampup * color_amplitude / 64
  let rampdown_amp_adj := rampdown * color_amplitude / 64
  let rampup_adj_with_floor := (rampup_amp_adj + brightness_floor) % 256
  let rampdown_adj_with_floor := (rampdown_amp_adj + brightness_floor) % 256
  if hueSection ≠ 0 then
    if hueSection = 1 then
      ⟨brightness_floor, rampdown_adj_with_floor, rampup_adj_with_floor⟩
    else ⟨rampup_adj_with_floor, brightness_floor, rampdown_adj_with_floor⟩
  else ⟨rampdown_adj_with_floor, rampup_adj_with_floor, brightness_floor⟩

/-! ## The four services -/

/-- The service `DEV_LED`: ON/OFF LED. -/
structure DEV_LED where
  ledPin : Int
  power : SpanCharacteristic Bool
deriving DecidableEq, Repr

/-- The method `DEV_LED::update()`. -/
def DEV_LED.update (self : DEV_LED) (gpio : PinLevels) : Bool × PinLevels :=
  (true, digitalWrite gpio self.ledPin (boolToInt self.power.getNewVal))

/-- The service `DEV_DimmableLED`: dimmable LED. -/
structure DEV_DimmableLED where
  ledPin : LedPin
  power : SpanCharacteristic Bool
  level : SpanCharacteristic Int
deriving DecidableEq, Repr

/-- The method `DEV_DimmableLED::update()`. -/
def DEV_DimmableLED.update (self : DEV_DimmableLED) : Bool × DEV_DimmableLED :=
  (true, { self with
    ledPin := self.ledPin.set (boolToInt self.power.getNewVal * self.level.getNewVal) })

/-- Modelled from the spec: one reconciliation cycle of the framework (not
part of this repository) around the Dimmable unit: record the requested
changes, invoke `update()`, commit what was changed. -/
def DEV_DimmableLED.cycle (self : DEV_DimmableLED) (newPower : Option Bool)
    (newLevel : Option Int) : DEV_DimmableLED :=
  let requested : DEV_DimmableLED :=
    { self with power := self.power.request newPower, level := self.level.request newLevel }
  let updated := requested.update.2
  { updated with power := updated.power.commit, level := updated.level.commit }

/-- The service `DEV_RgbLED`: RGB LED on three PWM pins. -/
structure DEV_RgbLED where
  redPin : LedPin
  greenPin : LedPin
  bluePin : LedPin
  power : SpanCharacteristic Bool
  H : SpanCharacteristic ℚ
  S : SpanCharacteristic ℚ
  V : SpanCharacteristic Int

/-- The method `DEV_RgbLED::update()`; the conversion routine
`LedPin::HSVtoRGB` is a parameter.  `s/100.0` and `v/100.0` are divisions in
`double` narrowed to the routine's `float` parameters; `p*r*100` is two `float`
multiplications, converted to `int`. -/
def DEV_RgbLED.update (hsvToRgb : ℚ → ℚ → ℚ → ℚ × ℚ × ℚ) (self : DEV_RgbLED) :
    Bool × DEV_RgbLED :=
  let h : ℚ := self.H.getVal
  let s : ℚ := self.S.getVal
  let v : ℚ := (self.V.getVal : Int)
  let p : Bool := self.power.getVal
  let p := if self.power.updated then self.power.getNewVal else p
  let h := if self.H.updated then self.H.getNewVal else h
  let s := if self.S.updated then self.S.getNewVal else s
  let v := if self.V.updated then ((self.V.getNewVal : Int) : ℚ) else v
  let rgb := hsvToRgb h (toFloat32 (toFloat64 (s / 100))) (toFloat32 (toFloat64 (v / 100)))
  let R := truncQ (toFloat32 (toFloat32 (boolToQ p * rgb.1) * 100))
  let G := truncQ (toFloat32 (toFloat32 (boolToQ p * rgb.2.1) * 100))
  let B := truncQ (toFloat32 (toFloat32 (boolToQ p * rgb.2.2) * 100))
  (true, { self with
    redPin := self.redPin.set R
    greenPin := self.greenPin.set G
    bluePin := self.bluePin.set B })

/-- The service `DEV_FastLED`: addressable strip of `numLeds` pixels. -/
structure DEV_FastLED where
  numLeds : Int
  power : SpanCharacteristic Bool
  H : SpanCharacteristic ℚ
  S : SpanCharacteristic ℚ
  V : SpanCharacteristic Int

/-- The method `DEV_FastLED::update()`; the sketch's constants `MIN_BRIGHTNESS`
and `MAX_BRIGHTNESS` and FastLED's `hsv2rgb_spectrum` are parameters, the
strip driver (with the buffer `ledArray` points at) is passed explicitly. -/
def DEV_FastLED.update (MIN_BRIGHTNESS MAX_BRIGHTNESS : Int)
    (hsv2rgb_spectrum : CHSV → CRGB) (self : DEV_FastLED) (drv : CFastLED) :
    Bool × CFastLED :=
  let h : ℚ := self.H.getVal
  let s : ℚ := self.S.getVal
  let v : ℚ := (self.V.getVal : Int)
  let p : Bool := self.power.getVal
  let p := if self.power.updated then self.power.getNewVal else p
  let h := if self.H.updated then self.H.getNewVal else h
  let s := if self.S.updated then self.S.getNewVal else s
  let v := if self.V.updated then ((self.V.getNewVal : Int) : ℚ) else v
  let fH := map (truncQ h) 0 360 0 255
  let fS := map (truncQ s) 0 100 0 255
  let fV := map (truncQ v) 0 100 0 255
  let color_hsv : CHSV := CHSV.setHSV ⟨0, 0, 0⟩ fH fS 255
  let color_rgb : CRGB := hsv2rgb_spectrum color_hsv
  let drv := { drv with leds := fill_solid drv.leds self.numLeds color_rgb }
  let drv :=
    if p then drv.setBrightness (constrain fV MIN_BRIGHTNESS MAX_BRIGHTNESS)
    else drv.setBrightness 0
  (true, drv.showLeds)

/-! ## The outputs in the words of the spec -/

/-- Discrete-RGB output in the words of the spec: convert the colour sample
`(H, S/100, V/100)`, scale each channel by the power flag and by 100, and
truncate; the arithmetic is the floating-point arithmetic of the sketch. -/
def rgbLevels (hsvToRgb : ℚ → ℚ → ℚ → ℚ × ℚ × ℚ) (p : Bool) (h s : ℚ) (v : Int) :
    Int × Int × Int :=
  let rgb := hsvToRgb h (toFloat32 (toFloat64 (s / 100)))
    (toFloat32 (toFloat64 ((v : ℚ) / 100)))
  (truncQ (toFloat32 (toFloat32 (boolToQ p * rgb.1) * 100)),
    truncQ (toFloat32 (toFloat32 (boolToQ p * rgb.2.1) * 100)),
    truncQ (toFloat32 (toFloat32 (boolToQ p * rgb.2.2) * 100)))

/-- Strip fill colour in the words of the spec: the spectrum conversion of the
colour sample `{fH, fS, value = 255}`. -/
def stripColor (conv : CHSV → CRGB) (h s : ℚ) : CRGB :=
  conv ⟨map (truncQ h) 0 360 0 255, map (truncQ s) 0 100 0 255, 255⟩

/-- The three PWM levels `(R, G, B)` the Discrete-RGB unit drives. -/
def DEV_RgbLED.levels (u : DEV_RgbLED) : Int × Int × Int :=
  (u.redPin.level, u.greenPin.level, u.bluePin.level)

/-! ## Example units used to instantiate the statements -/

/-- A spectrum routine to instantiate statements with: grey of the sample's value. -/
def greyOfValue (c : CHSV) : CRGB := ⟨c.val.toNat, c.val.toNat, c.val.toNat⟩

/-- A strip unit of three pixels whose Hue, Saturation, Brightness and Power
were all changed this cycle. -/
def stripUnit (p : Bool) (h s : ℚ) (v : Int) : DEV_FastLED :=
  ⟨3, ⟨false, p, true⟩, ⟨0, h, true⟩, ⟨0, s, true⟩, ⟨100, v, true⟩⟩

/-- A strip driver with a three-pixel buffer, dark. -/
def darkStrip : CFastLED := ⟨[⟨1, 2, 3⟩, ⟨4, 5, 6⟩, ⟨7, 8, 9⟩], 0, ([], 0)⟩

/-- A Discrete-RGB unit on pins 25, 26, 27 whose four attributes were all
changed this cycle. -/
def rgbUnit (p : Bool) (h s : ℚ) (v : Int) : DEV_RgbLED :=
  ⟨⟨25, 7⟩, ⟨26, 8⟩, ⟨27, 9⟩, ⟨false, p, true⟩, ⟨0, h, true⟩, ⟨0, s, true⟩, ⟨100, v, true⟩⟩

/-- A Dimmable unit on pin 17 with nothing pending. -/
def dimmableUnit (p : Bool) (b : Int) : DEV_DimmableLED :=
  ⟨⟨17, 0⟩, SpanCharacteristic.init p, SpanCharacteristic.init b⟩

/-! ## Auxiliary facts -/

theorem truncQ_intCast (n : Int) : truncQ (n : ℚ) = n := by
  unfold truncQ
  split
  · rw [← Int.cast_neg, Int.floor_intCast]; omega
  · exact Int.floor_intCast n

theorem truncQ_nonneg {x : ℚ} (hx : 0 ≤ x) : 0 ≤ truncQ x := by
  unfold truncQ
  rw [if_neg (not_lt.mpr hx)]
  exact Int.floor_nonneg.mpr hx

theorem truncQ_lt {x : ℚ} {n : Int} (hx : 0 ≤ x) (h : x < n) : truncQ x < n := by
  unfold truncQ
  rw [if_neg (not_lt.mpr hx)]
  exact Int.floor_lt.mpr h

theorem truncQ_le {x : ℚ} {n : Int} (hx : 0 ≤ x) (h : x ≤ n) : truncQ x ≤ n := by
  unfold truncQ
  rw [if_neg (not_lt.mpr hx)]
  exact Int.cast_le.mp (le_trans (Int.floor_le x) h)

theorem roundHalfEven_intCast (n : Int) : roundHalfEven (n : ℚ) = n := by
  simp [roundHalfEven]

theorem roundToPrec_zero (prec : Nat) : roundToPrec prec 0 = 0 := by
  simp [roundToPrec]

theorem roundToPrec_of_int (prec : Nat) (x : ℚ) (m : Int)
    (h : x / 2 ^ (Int.log 2 |x| - ((prec : Int) - 1)) = m) : roundToPrec prec x = x := by
  unfold roundToPrec
  split
  · rename_i h0; exact h0.symm
  · rw [h, roundHalfEven_intCast, ← h]
    have : (2 : ℚ) ^ (Int.log 2 |x| - ((prec : Int) - 1)) ≠ 0 := zpow_ne_zero _ (by norm_num)
    field_simp

theorem log_abs_one : Int.log 2 |(1 : ℚ)| = 0 := by simp

theorem log_abs_hundred : Int.log 2 |(100 : ℚ)| = 6 := by
  have h : |(100 : ℚ)| = ((100 : ℕ) : ℚ) := by norm_num
  rw [h, Int.log_natCast]
  have : Nat.log 2 100 = 6 := by
    apply Nat.log_eq_of_pow_le_of_lt_pow <;> norm_num
  simp [this]

theorem toFloat32_zero : toFloat32 0 = 0 := roundToPrec_zero 24

theorem toFloat32_one : toFloat32 1 = 1 := by
  apply roundToPrec_of_int 24 1 (2 ^ 23)
  rw [log_abs_one]
  norm_num

theorem toFloat64_one : toFloat64 1 = 1 := by
  apply roundToPrec_of_int 53 1 (2 ^ 52)
  rw [log_abs_one]
  norm_num

theorem toFloat32_hundred : toFloat32 100 = 100 := by
  apply roundToPrec_of_int 24 100 (100 * 2 ^ 17)
  rw [log_abs_hundred]
  norm_num

theorem toUInt8_of_mem {x : Int} (h0 : 0 ≤ x) (h1 : x ≤ 255) : toUInt8 x = x := by
  unfold toUInt8
  omega

theorem constrain_eq_clamp {amt low high : Int} (h : low ≤ high) :
    constrain amt low high = clamp amt low high := by
  unfold constrain clamp
  split_ifs <;> omega

theorem constrain_mem (amt : Int) {low high : Int} (h : low ≤ high) :
    low ≤ constrain amt low high ∧ constrain amt low high ≤ high := by
  unfold constrain
  split_ifs <;> omega

theorem map_bounds {x a : Int} (ha : 0 < a) (h0 : 0 ≤ x) (h1 : x ≤ a) :
    0 ≤ map x 0 a 0 255 ∧ map x 0 a 0 255 ≤ 255 := by
  unfold map
  simp only [sub_zero, add_zero]
  have hnn : 0 ≤ x * 255 := by omega
  rw [Int.tdiv_eq_ediv hnn (le_of_lt ha)]
  constructor
  · exact Int.ediv_nonneg hnn (le_of_lt ha)
  · apply Int.ediv_le_of_le_mul ha
    nlinarith

theorem fill_solid_eq (l : List CRGB) (n : Int) (c : CRGB) :
    fill_solid l n c = List.replicate (min n.toNat l.length) c ++ l.drop n.toNat := by
  unfold fill_solid
  generalize n.toNat = k
  induction k with
  | zero => simp
  | succ k ih =>
    rw [List.range_succ, List.foldl_append, ih]
    simp only [List.foldl_cons, List.foldl_nil]
    apply List.ext_getElem?
    intro i
    simp only [List.getElem?_set, List.getElem?_append, List.getElem?_replicate,
      List.getElem?_drop, List.length_append, List.length_replicate, List.length_drop]
    by_cases hk : k < l.length
    · rw [min_eq_left (le_of_lt hk), min_eq_left (Nat.succ_le_of_lt hk)]
      rcases Nat.lt_trichotomy i k with h | h | h
      · simp [h, Nat.ne_of_gt h, Nat.lt_succ_of_lt h]
      · subst h
        simp [hk]
      · have h1 : ¬ i < k := by omega
        have h2 : ¬ i < k + 1 := by omega
        have h3 : k ≠ i := by omega
        simp only [if_neg h1, if_neg h2, if_neg h3]
        congr 1
        omega
    · have hk2 : l.length ≤ k := by omega
      rw [min_eq_right hk2, min_eq_right (Nat.le_succ_of_le hk2)]
      by_cases hi : i < l.length
      · have h3 : k ≠ i := by omega
        simp [hi, h3]
      · have e1 : l[k + (i - l.length)]? = none := List.getElem?_eq_none (by omega)
        have e2 : l[k + 1 + (i - l.length)]? = none := List.getElem?_eq_none (by omega)
        simp [hi, e1, e2]
        omega

theorem SpanCharacteristic.getNewVal_eq_effective {α : Type} {c : SpanCharacteristic α}
    (h : c.WellFormed) : c.getNewVal = c.effective := by
  unfold SpanCharacteristic.getNewVal SpanCharacteristic.effective
  cases hu : c.isUpdated with
  | true => simp
  | false => simpa [hu] using h hu

theorem DEV_RgbLED.update_levels (conv : ℚ → ℚ → ℚ → ℚ × ℚ × ℚ) (u : DEV_RgbLED) :
    (DEV_RgbLED.update conv u).2.levels =
      rgbLevels conv u.power.effective u.H.effective u.S.effective u.V.effective := by
  unfold DEV_RgbLED.update DEV_RgbLED.levels rgbLevels SpanCharacteristic.effective
    SpanCharacteristic.getVal SpanCharacteristic.getNewVal SpanCharacteristic.updated LedPin.set
  cases u.power.isUpdated <;> cases u.H.isUpdated <;> cases u.S.isUpdated <;>
    cases u.V.isUpdated <;> rfl

theorem DEV_FastLED.update_eq (lo hi : Int) (conv : CHSV → CRGB) (u : DEV_FastLED)
    (drv : CFastLED) :
    DEV_FastLED.update lo hi conv u drv =
      (true,
        { leds := fill_solid drv.leds u.numLeds (stripColor conv u.H.effective u.S.effective)
          brightness :=
            toUInt8
              (if u.power.effective then constrain (map u.V.effective 0 100 0 255) lo hi else 0)
          shown :=
            (fill_solid drv.leds u.numLeds (stripColor conv u.H.effective u.S.effective),
              toUInt8
                (if u.power.effective then constrain (map u.V.effective 0 100 0 255) lo hi
                else 0)) }) := by
  unfold DEV_FastLED.update stripColor SpanCharacteristic.effective
    SpanCharacteristic.getVal SpanCharacteristic.getNewVal SpanCharacteristic.updated
    CFastLED.setBrightness CFastLED.showLeds CHSV.setHSV
  cases u.power.isUpdated <;> cases u.H.isUpdated <;> cases u.S.isUpdated <;>
    cases u.V.isUpdated <;> cases u.power.value <;> cases u.power.newValue <;>
    simp [truncQ_intCast]

/-! ## The claims -/

/-- C1 (Strip Unit, brightness contract), as amended: whenever
`0 ≤ MIN_BRIGHTNESS ≤ MAX_BRIGHTNESS ≤ 255`, the global brightness `update()`
sets on the driver (and flushes with the frame) is
`clamp(fV, MIN_BRIGHTNESS, MAX_BRIGHTNESS)` when the resolved power is true and
`0` when it is false, with `fV = map(V, 0, 100, 0, 255)` for the resolved
brightness `V`. -/
theorem strip_brightness_contract (lo hi : Int) (conv : CHSV → CRGB) (u : DEV_FastLED)
    (drv : CFastLED) (h0 : 0 ≤ lo) (h : lo ≤ hi) (h1 : hi ≤ 255) :
    (DEV_FastLED.update lo hi conv u drv).2.brightness =
        (if u.power.effective then clamp (map u.V.effective 0 100 0 255) lo hi else 0) ∧
      (DEV_FastLED.update lo hi conv u drv).2.shown.2 =
        (if u.power.effective then clamp (map u.V.effective 0 100 0 255) lo hi else 0) := by
  have hm := constrain_mem (map u.V.effective 0 100 0 255) h
  have e : toUInt8
      (if u.power.effective then constrain (map u.V.effective 0 100 0 255) lo hi else 0) =
      (if u.power.effective then clamp (map u.V.effective 0 100 0 255) lo hi else 0) := by
    rw [← constrain_eq_clamp h]
    apply toUInt8_of_mem <;> split <;> omega
  rw [DEV_FastLED.update_eq]
  exact ⟨e, e⟩

/-- Instance of C1: `V = 50`, power on, clamp range `[10, 200]`. -/
theorem strip_brightness_contract_witness :
    (0 : Int) ≤ 10 ∧ (10 : Int) ≤ 200 ∧ (200 : Int) ≤ 255 ∧
      (DEV_FastLED.update 10 200 greyOfValue (stripUnit true 0 0 50) darkStrip).2.brightness =
        (if (stripUnit true 0 0 50).power.effective
          then clamp (map (stripUnit true 0 0 50).V.effective 0 100 0 255) 10 200 else 0) :=
  ⟨by decide, by decide, by decide,
    (strip_brightness_contract 10 200 greyOfValue (stripUnit true 0 0 50) darkStrip
      (by decide) (by decide) (by decide)).1⟩

/-- C1 as stated fails for clamp constants outside `0..255`: with
`MIN_BRIGHTNESS = 256 ≤ MAX_BRIGHTNESS = 300`, `V = 50` and the power on,
`clamp(fV, 256, 300)` is `256`, which the driver's 8-bit brightness cannot hold;
the brightness set on the driver is `0`. -/
theorem strip_brightness_contract_fails_outside_byte :
    (256 : Int) ≤ 300 ∧
      (stripUnit true 0 0 50).power.effective = true ∧
      (stripUnit true 0 0 50).V.effective = 50 ∧
      clamp (map 50 0 100 0 255) 256 300 = 256 ∧
      (DEV_FastLED.update 256 300 greyOfValue (stripUnit true 0 0 50) darkStrip).2.brightness
        = 0 ∧
      (DEV_FastLED.update 256 300 greyOfValue (stripUnit true 0 0 50) darkStrip).2.brightness ≠
        (if (stripUnit true 0 0 50).power.effective
          then clamp (map (stripUnit true 0 0 50).V.effective 0 100 0 255) 256 300 else 0) := by
  rw [DEV_FastLED.update_eq]
  refine ⟨by decide, rfl, rfl, by decide, by decide, by decide⟩

/-- C2 (Strip Unit, uniform fill): when the buffer holds at least `numLeds`
pixels, after `update()` every one of its first `numLeds` elements is the
spectrum conversion of the sample `{map(H,0,360,0,255), map(S,0,100,0,255), 255}`
for the resolved Hue and Saturation; hence two reconciliations that agree on the
resolved Hue and Saturation fill the `numLeds` pixels identically, whatever their
Brightness, Power, clamp constants and previous buffer contents are. -/
theorem strip_fill_uniform (lo hi : Int) (conv : CHSV → CRGB) (u : DEV_FastLED)
    (drv : CFastLED) (hlen : u.numLeds.toNat ≤ drv.leds.length) :
    (∀ i : Nat, i < u.numLeds.toNat →
        (DEV_FastLED.update lo hi conv u drv).2.leds[i]? =
          some (conv ⟨map (truncQ u.H.effective) 0 360 0 255,
            map (truncQ u.S.effective) 0 100 0 255, 255⟩)) ∧
      (∀ (lo2 hi2 : Int) (u2 : DEV_FastLED) (drv2 : CFastLED),
        u2.numLeds = u.numLeds → u2.H.effective = u.H.effective →
        u2.S.effective = u.S.effective → u.numLeds.toNat ≤ drv2.leds.length →
        (DEV_FastLED.update lo2 hi2 conv u2 drv2).2.leds.take u.numLeds.toNat =
          (DEV_FastLED.update lo hi conv u drv).2.leds.take u.numLeds.toNat) := by
  constructor
  · intro i hi
    rw [DEV_FastLED.update_eq]
    simp only [fill_solid_eq, min_eq_left hlen]
    rw [List.getElem?_append_left (by simpa using hi)]
    simp [List.getElem?_replicate, hi, stripColor]
  · intro lo2 hi2 u2 drv2 hn hH hS hlen2
    rw [DEV_FastLED.update_eq, DEV_FastLED.update_eq]
    simp only [fill_solid_eq, hn, hH, hS, min_eq_left hlen, min_eq_left hlen2]
    simp [List.take_append_eq_append_take]

/-- Instance of C2: a three-pixel strip at `H = 200`, `S = 40`. -/
theorem strip_fill_uniform_witness :
    (stripUnit true 200 40 50).numLeds.toNat ≤ darkStrip.leds.length ∧
      ∀ i : Nat, i < (stripUnit true 200 40 50).numLeds.toNat →
        (DEV_FastLED.update 0 255 greyOfValue (stripUnit true 200 40 50) darkStrip).2.leds[i]? =
          some (greyOfValue ⟨map (truncQ (stripUnit true 200 40 50).H.effective) 0 360 0 255,
            map (truncQ (stripUnit true 200 40 50).S.effective) 0 100 0 255, 255⟩) :=
  ⟨by decide,
    (strip_fill_uniform 0 255 greyOfValue (stripUnit true 200 40 50) darkStrip
      (by decide)).1⟩

/-- C3 (merge rule, Discrete-RGB and Strip units): for every combination of
the four "changed" flags `fp fh fs fv`, every last value and every pending
value, the output of `update()` is computed from exactly the per-attribute
values `if changed then pending else last`: the three PWM levels of the
Discrete-RGB unit, and the fill colour and (8-bit) global brightness of the
Strip unit. -/
theorem merge_rule_per_attribute (fp fh fs fv : Bool) (pLast pNew : Bool)
    (hLast hNew sLast sNew : ℚ) (vLast vNew : Int) :
    (∀ (conv : ℚ → ℚ → ℚ → ℚ × ℚ × ℚ) (red green blue : LedPin),
        (DEV_RgbLED.update conv
            ⟨red, green, blue, ⟨pLast, pNew, fp⟩, ⟨hLast, hNew, fh⟩, ⟨sLast, sNew, fs⟩,
              ⟨vLast, vNew, fv⟩⟩).2.levels =
          rgbLevels conv (if fp then pNew else pLast) (if fh then hNew else hLast)
            (if fs then sNew else sLast) (if fv then vNew else vLast)) ∧
      (∀ (lo hi : Int) (conv : CHSV → CRGB) (n : Int) (drv : CFastLED),
        (DEV_FastLED.update lo hi conv
            ⟨n, ⟨pLast, pNew, fp⟩, ⟨hLast, hNew, fh⟩, ⟨sLast, sNew, fs⟩,
              ⟨vLast, vNew, fv⟩⟩ drv).2.leds =
          fill_solid drv.leds n
            (conv ⟨map (truncQ (if fh then hNew else hLast)) 0 360 0 255,
              map (truncQ (if fs then sNew else sLast)) 0 100 0 255, 255⟩) ∧
        (DEV_FastLED.update lo hi conv
            ⟨n, ⟨pLast, pNew, fp⟩, ⟨hLast, hNew, fh⟩, ⟨sLast, sNew, fs⟩,
              ⟨vLast, vNew, fv⟩⟩ drv).2.brightness =
          toUInt8 (if (if fp then pNew else pLast)
            then constrain (map (if fv then vNew else vLast) 0 100 0 255) lo hi else 0)) := by
  constructor
  · intro conv red green blue
    rw [DEV_RgbLED.update_levels]
    rfl
  · intro lo hi conv n drv
    rw [DEV_FastLED.update_eq]
    exact ⟨rfl, rfl⟩

/-- C4 (Dimmable Unit): for well-formed Power and Brightness characteristics
the level `update()` writes to the PWM driver, the product `power * level`, is
the resolved brightness when the resolved power is true and `0` when it is
false. -/
theorem dimmable_level_contract (u : DEV_DimmableLED) (hp : u.power.WellFormed)
    (hl : u.level.WellFormed) :
    u.update.2.ledPin.level = (if u.power.effective then u.level.effective else 0) ∧
      boolToInt u.power.effective * u.level.effective =
        (if u.power.effective then u.level.effective else 0) := by
  unfold DEV_DimmableLED.update LedPin.set
  rw [SpanCharacteristic.getNewVal_eq_effective hp,
    SpanCharacteristic.getNewVal_eq_effective hl]
  cases u.power.effective <;> simp [boolToInt]

/-- Instance of C4: brightness 75 with the power on. -/
theorem dimmable_level_contract_witness :
    (dimmableUnit true 75).power.WellFormed ∧ (dimmableUnit true 75).level.WellFormed ∧
      (dimmableUnit true 75).update.2.ledPin.level = 75 :=
  ⟨fun _ => rfl, fun _ => rfl,
    (dimmable_level_contract (dimmableUnit true 75) (fun _ => rfl) (fun _ => rfl)).1⟩

/-- C5 (Dimmable Unit, power/brightness independence): from any state, a
cycle that sets Brightness to `b` and Power to true drives the PWM pin with
`b`; a following cycle that changes only Power to false drives it with `0`; a
further cycle that changes only Power back to true drives it with `b` again,
Brightness not being part of either of the last two requests.  For `b = 75`
the driver sees `75, 0, 75`. -/
theorem dimmable_power_cycle_restores (self : DEV_DimmableLED) (b : Int) :
    ((self.cycle (some true) (some b)).ledPin.level = b ∧
      ((self.cycle (some true) (some b)).cycle (some false) none).ledPin.level = 0 ∧
      (((self.cycle (some true) (some b)).cycle (some false) none).cycle
        (some true) none).ledPin.level = b) ∧
    [(self.cycle (some true) (some 75)).ledPin.level,
      ((self.cycle (some true) (some 75)).cycle (some false) none).ledPin.level,
      (((self.cycle (some true) (some 75)).cycle (some false) none).cycle
        (some true) none).ledPin.level] = [75, 0, 75] := by
  simp [DEV_DimmableLED.cycle, DEV_DimmableLED.update, SpanCharacteristic.request,
    SpanCharacteristic.commit, SpanCharacteristic.getNewVal, LedPin.set, boolToInt]

/-- C6 (idempotence, all four units): the physical output `update()` writes
is a function of the effective characteristic values only.  For each unit, two
states that agree on the effective values (the characteristics of the On/Off
and Dimmable units, which are read through `getNewVal()`, being in the
framework's normal state) write the same pin level, PWM level, RGB triple, or
buffer fill and global brightness, whatever the prior physical output of either
was; and a second `update()` on the state the first call left, with the
characteristics unchanged, writes the identical output. -/
theorem update_idempotent :
    (∀ (u u2 : DEV_LED) (g g2 : PinLevels),
        u.power.WellFormed → u2.power.WellFormed → u2.ledPin = u.ledPin →
        u2.power.effective = u.power.effective →
        (u2.update g2).2 u.ledPin = (u.update g).2 u.ledPin) ∧
      (∀ (u : DEV_LED) (g : PinLevels), u.update (u.update g).2 = u.update g) ∧
      (∀ u u2 : DEV_DimmableLED,
        u.power.WellFormed → u.level.WellFormed → u2.power.WellFormed →
        u2.level.WellFormed → u2.power.effective = u.power.effective →
        u2.level.effective = u.level.effective →
        u2.update.2.ledPin.level = u.update.2.ledPin.level) ∧
      (∀ (u : DEV_DimmableLED) (prior : Int),
        DEV_DimmableLED.update { u with ledPin := u.ledPin.set prior } = u.update ∧
        u.update.2.update = u.update) ∧
      (∀ (conv : ℚ → ℚ → ℚ → ℚ × ℚ × ℚ) (u u2 : DEV_RgbLED),
        u2.power.effective = u.power.effective → u2.H.effective = u.H.effective →
        u2.S.effective = u.S.effective → u2.V.effective = u.V.effective →
        (u2.update conv).2.levels = (u.update conv).2.levels) ∧
      (∀ (conv : ℚ → ℚ → ℚ → ℚ × ℚ × ℚ) (u : DEV_RgbLED) (r g b : Int),
        DEV_RgbLED.update conv
            { u with redPin := u.redPin.set r, greenPin := u.greenPin.set g,
                     bluePin := u.bluePin.set b } = u.update conv ∧
        (u.update conv).2.update conv = u.update conv) ∧
      (∀ (lo hi : Int) (conv : CHSV → CRGB) (u u2 : DEV_FastLED) (drv drv2 : CFastLED),
        u2.numLeds = u.numLeds → u2.power.effective = u.power.effective →
        u2.H.effective = u.H.effective → u2.S.effective = u.S.effective →
        u2.V.effective = u.V.effective →
        u.numLeds.toNat ≤ drv.leds.length → u.numLeds.toNat ≤ drv2.leds.length →
        (u2.update lo hi conv drv2).2.leds.take u.numLeds.toNat =
            (u.update lo hi conv drv).2.leds.take u.numLeds.toNat ∧
          (u2.update lo hi conv drv2).2.brightness = (u.update lo hi conv drv).2.brightness) ∧
      (∀ (lo hi : Int) (conv : CHSV → CRGB) (u : DEV_FastLED) (drv : CFastLED),
        (∀ drv2 : CFastLED, drv2.leds.length = drv.leds.length →
          drv2.leds.drop u.numLeds.toNat = drv.leds.drop u.numLeds.toNat →
          u.update lo hi conv drv2 = u.update lo hi conv drv) ∧
        u.update lo hi conv (u.update lo hi conv drv).2 = u.update lo hi conv drv) := by
  refine ⟨?_, ?_, ?_, ?_, ?_, ?_, ?_, ?_⟩
  · intro u u2 g g2 hw hw2 hpin heff
    simp [DEV_LED.update, digitalWrite, SpanCharacteristic.getNewVal_eq_effective hw,
      SpanCharacteristic.getNewVal_eq_effective hw2, hpin, heff]
  · intro u g
    unfold DEV_LED.update digitalWrite
    congr 1
    funext q
    by_cases hq : q = u.ledPin <;> simp [hq]
  · intro u u2 hp hl hp2 hl2 hep hel
    simp only [DEV_DimmableLED.update, LedPin.set,
      SpanCharacteristic.getNewVal_eq_effective hp, SpanCharacteristic.getNewVal_eq_effective hl,
      SpanCharacteristic.getNewVal_eq_effective hp2,
      SpanCharacteristic.getNewVal_eq_effective hl2, hep, hel]
  · intro u prior
    exact ⟨rfl, rfl⟩
  · intro conv u u2 hp hh hs hv
    rw [DEV_RgbLED.update_levels, DEV_RgbLED.update_levels, hp, hh, hs, hv]
  · intro conv u r g b
    exact ⟨rfl, rfl⟩
  · intro lo hi conv u u2 drv drv2 hn hp hh hs hv hlen hlen2
    rw [DEV_FastLED.update_eq, DEV_FastLED.update_eq]
    simp only [fill_solid_eq, hn, hp, hh, hs, hv, min_eq_left hlen, min_eq_left hlen2]
    simp [List.take_append_eq_append_take]
  · intro lo hi conv u drv
    constructor
    · intro drv2 hlen hdrop
      rw [DEV_FastLED.update_eq, DEV_FastLED.update_eq]
      simp only [fill_solid_eq, hlen, hdrop]
    · rw [DEV_FastLED.update_eq, DEV_FastLED.update_eq]
      simp only [fill_solid_eq]
      have e : ∀ (c : CRGB) (k : Nat) (l : List CRGB),
          List.replicate (min k (List.replicate (min k l.length) c ++ l.drop k).length) c ++
              (List.replicate (min k l.length) c ++ l.drop k).drop k =
            List.replicate (min k l.length) c ++ l.drop k := by
        intro c k l
        rcases Nat.le_total k l.length with hk | hk
        · have h1 : (List.replicate k c ++ l.drop k).length = l.length := by
            simp; omega
          rw [min_eq_left hk, h1, min_eq_left hk]
          simp [List.drop_append_eq_append_drop]
        · have h1 : (List.replicate l.length c ++ l.drop k).length = l.length := by
            simp; omega
          rw [min_eq_right hk, h1, min_eq_right hk, List.drop_of_length_le hk]
          simp
          omega
      simp only [e]

/-- Instance of C6 on the Dimmable unit: a unit whose Power and Brightness
were just changed to `true` and `75`, driving a pin that showed `40`, writes the
same level as a unit that holds `true` and `75` with nothing pending and a pin
that showed `0`. -/
theorem update_idempotent_witness :
    (dimmableUnit true 75).power.WellFormed ∧ (dimmableUnit true 75).level.WellFormed ∧
      (DEV_DimmableLED.update ⟨⟨17, 40⟩, ⟨false, true, true⟩, ⟨1, 75, true⟩⟩).2.ledPin.level =
        (dimmableUnit true 75).update.2.ledPin.level ∧
      (dimmableUnit true 75).update.2.ledPin.level = 75 :=
  ⟨fun _ => rfl, fun _ => rfl,
    update_idempotent.2.2.1 (dimmableUnit true 75) ⟨⟨17, 40⟩, ⟨false, true, true⟩, ⟨1, 75, true⟩⟩
      (fun _ => rfl) (fun _ => rfl) (fun h => by cases h) (fun h => by cases h) rfl rfl,
    rfl⟩

/-- C7 (Discrete-RGB, Scenario A): with resolved `H = 120`, `S = 100`,
`V = 100` and Power true, the conversion of `HSV(120, 1, 1)` is `(0, 1, 0)` and
`update()` writes `(R, G, B) = (0, 100, 0)` to the red, green and blue drivers. -/
theorem rgb_scenario_A (u : DEV_RgbLED) (hp : u.power.effective = true)
    (hh : u.H.effective = 120) (hs : u.S.effective = 100) (hv : u.V.effective = 100) :
    HSVtoRGB 120 (100 / 100) (100 / 100) = (0, 1, 0) ∧
      (DEV_RgbLED.update HSVtoRGB u).2.levels = (0, 100, 0) := by
  have hc : HSVtoRGB 120 1 1 = (0, 1, 0) := by
    norm_num [HSVtoRGB]
  have h1 : (100 : ℚ) / 100 = 1 := by norm_num
  refine ⟨by rw [h1]; exact hc, ?_⟩
  rw [DEV_RgbLED.update_levels, hp, hh, hs, hv]
  unfold rgbLevels
  simp only [Int.cast_ofNat, h1, toFloat64_one, toFloat32_one, hc, boolToQ, if_true, mul_zero,
    mul_one, one_mul, zero_mul, toFloat32_zero, toFloat32_hundred]
  norm_num [truncQ]

/-- Instance of C7: all four attributes set in one cycle. -/
theorem rgb_scenario_A_witness :
    (rgbUnit true 120 100 100).power.effective = true ∧
      (DEV_RgbLED.update HSVtoRGB (rgbUnit true 120 100 100)).2.levels = (0, 100, 0) :=
  ⟨rfl, (rgb_scenario_A (rgbUnit true 120 100 100) rfl rfl rfl rfl).2⟩

/-- C8 (Discrete-RGB, Scenario B): when the resolved Power is false,
`update()` writes `(R, G, B) = (0, 0, 0)` to the three PWM drivers, for every
Hue, Saturation and Brightness and whatever the conversion routine returns. -/
theorem rgb_scenario_B (conv : ℚ → ℚ → ℚ → ℚ × ℚ × ℚ) (u : DEV_RgbLED)
    (hp : u.power.effective = false) :
    (DEV_RgbLED.update conv u).2.levels = (0, 0, 0) := by
  rw [DEV_RgbLED.update_levels, hp]
  simp [rgbLevels, boolToQ, truncQ, toFloat32_zero]

/-- Instance of C8: `H = 240`, `S = 80`, `V = 60`, power switched off. -/
theorem rgb_scenario_B_witness :
    (rgbUnit false 240 80 60).power.effective = false ∧
      (DEV_RgbLED.update HSVtoRGB (rgbUnit false 240 80 60)).2.levels = (0, 0, 0) :=
  ⟨rfl, rgb_scenario_B HSVtoRGB (rgbUnit false 240 80 60) rfl⟩

/-- C10 (Strip, 8-bit range safety): for resolved `H` in `[0,360)`, `S` in
`[0,100]` and `V` in `[0,100]` the integers `fH`, `fS`, `fV` lie in `0..255`
(reducing them modulo 256, as an 8-bit field does, changes nothing), and for
`0 ≤ MIN_BRIGHTNESS ≤ MAX_BRIGHTNESS ≤ 255` the global brightness `update()`
passes to the driver lies in `0..255`, so the driver holds it unchanged. -/
theorem strip_eight_bit_safe (lo hi : Int) (conv : CHSV → CRGB) (u : DEV_FastLED)
    (drv : CFastLED) (hH0 : 0 ≤ u.H.effective) (hH1 : u.H.effective < 360)
    (hS0 : 0 ≤ u.S.effective) (hS1 : u.S.effective ≤ 100)
    (hV0 : 0 ≤ u.V.effective) (hV1 : u.V.effective ≤ 100)
    (hlo : 0 ≤ lo) (hlohi : lo ≤ hi) (hhi : hi ≤ 255) :
    (0 ≤ map (truncQ u.H.effective) 0 360 0 255 ∧
        map (truncQ u.H.effective) 0 360 0 255 ≤ 255 ∧
        map (truncQ u.H.effective) 0 360 0 255 % 256 =
          map (truncQ u.H.effective) 0 360 0 255) ∧
      (0 ≤ map (truncQ u.S.effective) 0 100 0 255 ∧
        map (truncQ u.S.effective) 0 100 0 255 ≤ 255 ∧
        map (truncQ u.S.effective) 0 100 0 255 % 256 =
          map (truncQ u.S.effective) 0 100 0 255) ∧
      (0 ≤ map (truncQ (u.V.effective : ℚ)) 0 100 0 255 ∧
        map (truncQ (u.V.effective : ℚ)) 0 100 0 255 ≤ 255) ∧
      (0 ≤ (DEV_FastLED.update lo hi conv u drv).2.brightness ∧
        (DEV_FastLED.update lo hi conv u drv).2.brightness ≤ 255 ∧
        (DEV_FastLED.update lo hi conv u drv).2.brightness % 256 =
          (DEV_FastLED.update lo hi conv u drv).2.brightness) ∧
      (0 ≤ (if u.power.effective then constrain (map u.V.effective 0 100 0 255) lo hi else 0) ∧
        (if u.power.effective then constrain (map u.V.effective 0 100 0 255) lo hi else 0)
          ≤ 255 ∧
        (DEV_FastLED.update lo hi conv u drv).2.brightness =
          (if u.power.effective then constrain (map u.V.effective 0 100 0 255) lo hi
            else 0)) := by
  have bH := map_bounds (x := truncQ u.H.effective) (a := 360) (by decide)
    (truncQ_nonneg hH0)
    (le_of_lt (truncQ_lt hH0 (by exact_mod_cast hH1)))
  have bS := map_bounds (x := truncQ u.S.effective) (a := 100) (by decide)
    (truncQ_nonneg hS0) (truncQ_le hS0 (by exact_mod_cast hS1))
  have bV := map_bounds (x := u.V.effective) (a := 100) (by decide) hV0 hV1
  have hc := constrain_mem (map u.V.effective 0 100 0 255) hlohi
  have bP : 0 ≤ (if u.power.effective then constrain (map u.V.effective 0 100 0 255) lo hi
        else 0) ∧
      (if u.power.effective then constrain (map u.V.effective 0 100 0 255) lo hi else 0)
        ≤ 255 := by
    split <;> omega
  have eB : (DEV_FastLED.update lo hi conv u drv).2.brightness =
      (if u.power.effective then constrain (map u.V.effective 0 100 0 255) lo hi else 0) := by
    rw [DEV_FastLED.update_eq]
    exact toUInt8_of_mem bP.1 bP.2
  rw [truncQ_intCast, eB]
  refine ⟨⟨bH.1, bH.2, ?_⟩, ⟨bS.1, bS.2, ?_⟩, bV, ⟨bP.1, bP.2, ?_⟩, bP.1, bP.2, rfl⟩ <;>
    omega

/-- Instance of C10: `H = 359.5`, `S = 100`, `V = 100`, clamp range `[0, 255]`. -/
theorem strip_eight_bit_safe_witness :
    (stripUnit true (719 / 2) 100 100).H.effective < 360 ∧
      0 ≤ (DEV_FastLED.update 0 255 greyOfValue (stripUnit true (719 / 2) 100 100)
            darkStrip).2.brightness ∧
      (DEV_FastLED.update 0 255 greyOfValue (stripUnit true (719 / 2) 100 100)
            darkStrip).2.brightness ≤ 255 :=
  have hq : (stripUnit true (719 / 2) 100 100).H.effective = 719 / 2 := rfl
  have hs : (stripUnit true (719 / 2) 100 100).S.effective = 100 := rfl
  have hv : (stripUnit true (719 / 2) 100 100).V.effective = 100 := rfl
  have h := strip_eight_bit_safe 0 255 greyOfValue (stripUnit true (719 / 2) 100 100)
    darkStrip (by rw [hq]; norm_num) (by rw [hq]; norm_num) (by rw [hs]; norm_num)
    (by rw [hs]) (by rw [hv]; decide) (by rw [hv]) (by decide) (by decide)
    (by decide)
  ⟨by rw [hq]; norm_num, h.2.2.2.1.1, h.2.2.2.1.2.1⟩

end FastLEDLight
